import Mathlib

/-!
Verification development for the opm-material sample: the Brooks-Corey
capillary pressure / saturation relation
(`dumux/new_material/fluidmatrixinteractions/2p/brookscorey.hh`), the
`Simple_H2O_N2_System` fluid system, and the dense-AD `pow` base-0 behaviour
described in the changelog.  The C++ `Scalar` type is modelled by the real
numbers; `pow` on positive bases is modelled by `Real.rpow`.
-/

namespace OpmMaterial

/-- Brooks-Corey parameter bundle: entry pressure `pe` and the pore-size
distribution index `alpha` (mirrors `BrooksCoreyParams`). -/
structure BCParams where
  pe : ℝ
  alpha : ℝ

namespace BrooksCorey

/-- `BrooksCorey::pC`: `params.pe()*pow(Swe, -1.0/params.alpha())`. -/
noncomputable def pC (params : BCParams) (Swe : ℝ) : ℝ :=
  params.pe * Swe ^ (-1 / params.alpha)

/-- `BrooksCorey::Sw`: `tmp = pow(pC/params.pe(), -params.alpha());
return std::min(std::max(tmp, 0.0), 1.0)`. -/
noncomputable def Sw (params : BCParams) (pC : ℝ) : ℝ :=
  let tmp : ℝ := (pC / params.pe) ^ (-params.alpha)
  min (max tmp 0) 1

/-- `BrooksCorey::dpC_dSw`:
`-params.pe()/params.alpha() * pow(Swe, -1/params.alpha() - 1)`. -/
noncomputable def dpC_dSw (params : BCParams) (Swe : ℝ) : ℝ :=
  -params.pe / params.alpha * Swe ^ (-1 / params.alpha - 1)

/-- `BrooksCorey::dSw_dpC`:
`-params.alpha()/params.pe() * pow(pC/params.pe(), -params.alpha() - 1)`. -/
noncomputable def dSw_dpC (params : BCParams) (pC : ℝ) : ℝ :=
  -params.alpha / params.pe * (pC / params.pe) ^ (-params.alpha - 1)

/-- `BrooksCorey::krw`: `pow(Sw_mob, (2. + 3*params.alpha()) / params.alpha())`. -/
noncomputable def krw (params : BCParams) (Sw_mob : ℝ) : ℝ :=
  Sw_mob ^ ((2 + 3 * params.alpha) / params.alpha)

/-- `BrooksCorey::krn`: `exponent = (2. + params.alpha())/params.alpha();
tmp = 1. - Sw_mob; return tmp*tmp*(1. - pow(Sw_mob, exponent))`. -/
noncomputable def krn (params : BCParams) (Sw_mob : ℝ) : ℝ :=
  let exponent : ℝ := (2 + params.alpha) / params.alpha
  let tmp : ℝ := 1 - Sw_mob
  tmp * tmp * (1 - Sw_mob ^ exponent)

/-- Debug-build variant of `pC`: the entry assertion `assert(0 <= Swe && Swe <= 1)`
modelled as a guard; `none` means the assertion fires. -/
noncomputable def pC_checked (params : BCParams) (Swe : ℝ) : Option ℝ :=
  if 0 ≤ Swe ∧ Swe ≤ 1 then some (pC params Swe) else none

/-- Debug-build variant of `Sw`: the entry assertion `assert(pC >= 0)`. -/
noncomputable def Sw_checked (params : BCParams) (pc : ℝ) : Option ℝ :=
  if 0 ≤ pc then some (Sw params pc) else none

/-- Debug-build variant of `dpC_dSw`: the entry assertion
`assert(0 <= Swe && Swe <= 1)`. -/
noncomputable def dpC_dSw_checked (params : BCParams) (Swe : ℝ) : Option ℝ :=
  if 0 ≤ Swe ∧ Swe ≤ 1 then some (dpC_dSw params Swe) else none

/-- Debug-build variant of `dSw_dpC`: the entry assertion `assert(pC >= 0)`. -/
noncomputable def dSw_dpC_checked (params : BCParams) (pc : ℝ) : Option ℝ :=
  if 0 ≤ pc then some (dSw_dpC params pc) else none

/-- Debug-build variant of `krw`: the entry assertion
`assert(0 <= Sw_mob && Sw_mob <= 1)`. -/
noncomputable def krw_checked (params : BCParams) (Sw_mob : ℝ) : Option ℝ :=
  if 0 ≤ Sw_mob ∧ Sw_mob ≤ 1 then some (krw params Sw_mob) else none

/-- Debug-build variant of `krn`: the entry assertion
`assert(0 <= Sw_mob && Sw_mob <= 1)`. -/
noncomputable def krn_checked (params : BCParams) (Sw_mob : ℝ) : Option ℝ :=
  if 0 ≤ Sw_mob ∧ Sw_mob ≤ 1 then some (krn params Sw_mob) else none

end BrooksCorey

open BrooksCorey in
/-- C1: for every effective saturation `s ∈ (0,1]` and every Brooks-Corey
parameter set with `pe > 0` and `alpha > 0`, the saturation curve inverts the
capillary-pressure curve: `Sw(params, pC(params, s)) = s`. -/
theorem brooksCorey_Sw_pC_roundTrip (params : BCParams) (s : ℝ)
    (hs0 : 0 < s) (hs1 : s ≤ 1) (hpe : 0 < params.pe) (ha : 0 < params.alpha) :
    Sw params (pC params s) = s := by
  have hpe' : params.pe ≠ 0 := ne_of_gt hpe
  have ha' : params.alpha ≠ 0 := ne_of_gt ha
  unfold Sw pC
  have hdiv : params.pe * s ^ (-1 / params.alpha) / params.pe
      = s ^ (-1 / params.alpha) := by
    field_simp
  rw [hdiv, ← Real.rpow_mul (le_of_lt hs0)]
  have hexp : -1 / params.alpha * -params.alpha = 1 := by
    field_simp
  rw [hexp, Real.rpow_one]
  show (s ⊔ 0) ⊓ 1 = s
  rw [max_eq_left (le_of_lt hs0), min_eq_left hs1]

/-- C1 witness: the round-trip theorem instantiated at `s = 1/2`,
`pe = 1000`, `alpha = 2`. -/
theorem brooksCorey_Sw_pC_roundTrip_witness :
    0 < (1/2 : ℝ) ∧ (1/2 : ℝ) ≤ 1 ∧ 0 < (1000 : ℝ) ∧ 0 < (2 : ℝ) ∧
    BrooksCorey.Sw ⟨1000, 2⟩ (BrooksCorey.pC ⟨1000, 2⟩ (1/2)) = 1/2 :=
  ⟨by norm_num, by norm_num, by norm_num, by norm_num,
    brooksCorey_Sw_pC_roundTrip ⟨1000, 2⟩ (1/2)
      (by norm_num) (by norm_num) (by norm_num) (by norm_num)⟩

open BrooksCorey in
/-- C2: for every capillary pressure `pC ≥ 0` and every parameter set, the
result of `Sw` lies in `[0,1]`, because the raw power-law value is clamped by
`std::min(std::max(tmp, 0), 1)` before being returned. -/
theorem brooksCorey_Sw_in_unit_interval (params : BCParams) (pc : ℝ)
    (hpc : 0 ≤ pc) :
    0 ≤ Sw params pc ∧ Sw params pc ≤ 1 := by
  unfold Sw
  exact ⟨le_min (le_max_right _ 0) zero_le_one, min_le_right _ 1⟩

/-- C2 witness: the clamping theorem instantiated at `pC = 5`,
`pe = 2`, `alpha = 3`. -/
theorem brooksCorey_Sw_in_unit_interval_witness :
    0 ≤ (5 : ℝ) ∧
    (0 ≤ BrooksCorey.Sw ⟨2, 3⟩ 5 ∧ BrooksCorey.Sw ⟨2, 3⟩ 5 ≤ 1) :=
  ⟨by norm_num, brooksCorey_Sw_in_unit_interval ⟨2, 3⟩ 5 (by norm_num)⟩

open BrooksCorey in
/-- C4: with `pe = 1000` and `alpha = 2`, `pC(params, 0.5)` equals
`1000 * 0.5^(-0.5)`, which is `1000*√2 ≈ 1414.2`, and `dpC_dSw(params, 0.5)`
equals `-1000/2 * 0.5^(-1.5)`, which is `-(1000*√2) ≈ -1414.2`. -/
theorem brooksCorey_example_pe1000_alpha2 :
    pC ⟨1000, 2⟩ (1/2) = 1000 * (1/2 : ℝ) ^ (-(0.5) : ℝ) ∧
    dpC_dSw ⟨1000, 2⟩ (1/2) = -1000 / 2 * (1/2 : ℝ) ^ (-(1.5) : ℝ) ∧
    pC ⟨1000, 2⟩ (1/2) = 1000 * Real.sqrt 2 ∧
    dpC_dSw ⟨1000, 2⟩ (1/2) = -(1000 * Real.sqrt 2) ∧
    1414.15 < 1000 * Real.sqrt 2 ∧ 1000 * Real.sqrt 2 < 1414.25 := by
  have h2 : ((1/2 : ℝ)) = (2 : ℝ)⁻¹ := by norm_num
  have hhalf : (1/2 : ℝ) ^ (-(0.5) : ℝ) = Real.sqrt 2 := by
    rw [h2, Real.inv_rpow (by norm_num), ← Real.rpow_neg (by norm_num),
      neg_neg, Real.sqrt_eq_rpow]
    norm_num
  have h32 : (1/2 : ℝ) ^ (-(1.5) : ℝ) = 2 * Real.sqrt 2 := by
    rw [h2, Real.inv_rpow (by norm_num), ← Real.rpow_neg (by norm_num),
      neg_neg]
    have : ((1.5 : ℝ)) = 1 + 1/2 := by norm_num
    rw [this, Real.rpow_add (by norm_num), Real.rpow_one, Real.sqrt_eq_rpow]
  have hsq := Real.sq_sqrt (show (0:ℝ) ≤ 2 by norm_num)
  have hnn := Real.sqrt_nonneg 2
  refine ⟨?_, ?_, ?_, ?_, ?_, ?_⟩
  · unfold pC
    norm_num
  · unfold dpC_dSw
    norm_num
  · unfold pC
    rw [show (-1 / (⟨1000, 2⟩ : BCParams).alpha : ℝ) = -(0.5 : ℝ) by norm_num,
      hhalf]
  · unfold dpC_dSw
    rw [show (-1 / (⟨1000, 2⟩ : BCParams).alpha - 1 : ℝ) = -(1.5 : ℝ) by
        norm_num,
      h32]
    ring
  · nlinarith [hsq, hnn]
  · nlinarith [hsq, hnn]

open BrooksCorey in
/-- C5: under the documented preconditions (`0 ≤ Swe ≤ 1` for `pC`, `dpC_dSw`,
`krw`, `krn`; `pC ≥ 0` for `Sw`, `dSw_dpC`) every debug assertion passes and
the debug build returns exactly the release-build value; out-of-domain inputs
are rejected only by the debug assertion (release functions stay total). -/
theorem brooksCorey_assertions_hold (params : BCParams) (s pc : ℝ)
    (hs0 : 0 ≤ s) (hs1 : s ≤ 1) (hpc : 0 ≤ pc) :
    pC_checked params s = some (pC params s) ∧
    dpC_dSw_checked params s = some (dpC_dSw params s) ∧
    krw_checked params s = some (krw params s) ∧
    krn_checked params s = some (krn params s) ∧
    Sw_checked params pc = some (Sw params pc) ∧
    dSw_dpC_checked params pc = some (dSw_dpC params pc) ∧
    pC_checked params 2 = none ∧
    Sw_checked params (-1) = none := by
  unfold pC_checked dpC_dSw_checked krw_checked krn_checked Sw_checked
    dSw_dpC_checked
  norm_num [hs0, hs1, hpc]

/-- C5 witness: the assertion theorem instantiated at `Swe = 1/2`, `pC = 3`,
`pe = 1`, `alpha = 1`. -/
theorem brooksCorey_assertions_hold_witness :
    0 ≤ (1/2 : ℝ) ∧ (1/2 : ℝ) ≤ 1 ∧ 0 ≤ (3 : ℝ) ∧
    BrooksCorey.pC_checked ⟨1, 1⟩ (1/2)
      = some (BrooksCorey.pC ⟨1, 1⟩ (1/2)) :=
  ⟨by norm_num, by norm_num, by norm_num,
    (brooksCorey_assertions_hold ⟨1, 1⟩ (1/2) 3
      (by norm_num) (by norm_num) (by norm_num)).1⟩

/-- Error raised by `DUNE_THROW(Dune::InvalidStateException, ...)` in the
fluid-system dispatchers. -/
inductive FsErr where
  | invalidCompIdx : ℤ → FsErr
  | invalidPhaseIdx : ℤ → FsErr
deriving DecidableEq

/-- The component/property functions the fluid system delegates to
(`SimpleH2O`, `N2`, `IdealGas::R`); their headers are included by
`simple_h2o_n2_system.hh` but their sources are outside this sample, so the
system is kept parametric in them. -/
structure FsComponents where
  H2O_name : String
  N2_name : String
  H2O_molarMass : ℝ
  N2_molarMass : ℝ
  H2O_liquidDensity : ℝ → ℝ → ℝ
  H2O_liquidViscosity : ℝ → ℝ → ℝ
  N2_gasViscosity : ℝ → ℝ → ℝ
  H2O_liquidEnthalpy : ℝ → ℝ → ℝ
  H2O_gasEnthalpy : ℝ → ℝ → ℝ
  N2_gasEnthalpy : ℝ → ℝ → ℝ
  R : ℝ

/-- The slice of the `FluidState` template parameter the modelled functions
read: mole fractions, mass fractions and partial pressures. -/
structure FluidState where
  moleFrac : ℤ → ℤ → ℝ
  massFrac : ℤ → ℤ → ℝ
  partialPressure : ℤ → ℝ

/-- The `FluidState::setPartialPressure(componentIndex, pressure)` method the
source requires of its `FluidState` template parameter: a pointwise update of
the partial-pressure slot, leaving the fractions untouched. -/
def FluidState.setPartialPressure (fs : FluidState) (compIdx : ℤ) (p : ℝ) :
    FluidState :=
  { fs with
    partialPressure := fun i => if i = compIdx then p else fs.partialPressure i }

/-- Modelled from the spec: `Dumux::IdealGas<Scalar>::density` is not part of
this sample; per the spec the ideal-gas phase density is `P*M/(R*T)` for mean
molar mass `M`, temperature `T` and pressure `P`. -/
noncomputable def IdealGas.density (R M T P : ℝ) : ℝ :=
  P * M / (R * T)

namespace Simple_H2O_N2_System

def lPhaseIdx : ℤ := 0
def gPhaseIdx : ℤ := 1
def H2OIdx : ℤ := 0
def N2Idx : ℤ := 1

/-- `Simple_H2O_N2_System::componentName`: `switch` over the component index,
falling through to `DUNE_THROW` for any other index. -/
def componentName (sys : FsComponents) (compIdx : ℤ) : Except FsErr String :=
  if compIdx = H2OIdx then .ok sys.H2O_name
  else if compIdx = N2Idx then .ok sys.N2_name
  else .error (.invalidCompIdx compIdx)

/-- `Simple_H2O_N2_System::molarMass`: `switch` over the component index,
falling through to `DUNE_THROW` for any other index. -/
def molarMass (sys : FsComponents) (compIdx : ℤ) : Except FsErr ℝ :=
  if compIdx = H2OIdx then .ok sys.H2O_molarMass
  else if compIdx = N2Idx then .ok sys.N2_molarMass
  else .error (.invalidCompIdx compIdx)

/-- `Simple_H2O_N2_System::computePartialPressures`: assigns the ideal-gas
partial pressures `pg * moleFrac(gPhaseIdx, compIdx)` of both components to
its `FluidState` argument, which the source takes by non-const reference and
mutates via `setPartialPressure`; the mutation is modelled as explicit state
passing returning the updated state.  The `temperature` parameter is unused,
as in the source. -/
def computePartialPressures (_temperature pg : ℝ) (fluidState : FluidState) :
    FluidState :=
  let fs1 := fluidState.setPartialPressure H2OIdx
    (pg * fluidState.moleFrac gPhaseIdx H2OIdx)
  fs1.setPartialPressure N2Idx (pg * fs1.moleFrac gPhaseIdx N2Idx)

/-- `Simple_H2O_N2_System::phaseDensity`: liquid water density for the liquid
phase, ideal-gas density with the mole-fraction weighted mean molar mass for
the gas phase, `DUNE_THROW` for any other phase index. -/
noncomputable def phaseDensity (sys : FsComponents) (phaseIdx : ℤ)
    (temperature pressure : ℝ) (fluidState : FluidState) : Except FsErr ℝ :=
  if phaseIdx = lPhaseIdx then
    .ok (sys.H2O_liquidDensity temperature pressure)
  else if phaseIdx = gPhaseIdx then
    let meanMolarMass : ℝ :=
      fluidState.moleFrac gPhaseIdx H2OIdx * sys.H2O_molarMass +
      fluidState.moleFrac gPhaseIdx N2Idx * sys.N2_molarMass
    .ok (IdealGas.density sys.R meanMolarMass temperature pressure)
  else .error (.invalidPhaseIdx phaseIdx)

/-- `Simple_H2O_N2_System::phaseViscosity`: an `if/else` with no throw —
liquid water viscosity for `lPhaseIdx`, nitrogen gas viscosity for every other
phase index. -/
def phaseViscosity (sys : FsComponents) (phaseIdx : ℤ)
    (temperature pressure : ℝ) (_fluidState : FluidState) : ℝ :=
  if phaseIdx = lPhaseIdx then
    sys.H2O_liquidViscosity temperature pressure
  else
    sys.N2_gasViscosity temperature pressure

/-- `Simple_H2O_N2_System::phaseEnthalpy`: liquid water enthalpy for the
liquid phase (the source's self-initialising locals `Scalar temperature =
temperature` are modelled as the function parameters they shadow), mass-
fraction weighted gas enthalpies at the partial pressures otherwise. -/
def phaseEnthalpy (sys : FsComponents) (phaseIdx : ℤ)
    (temperature pressure : ℝ) (fluidState : FluidState) : ℝ :=
  if phaseIdx = lPhaseIdx then
    sys.H2O_liquidEnthalpy temperature pressure
  else
    sys.H2O_gasEnthalpy temperature (fluidState.partialPressure H2OIdx) *
      fluidState.massFrac gPhaseIdx H2OIdx +
    sys.N2_gasEnthalpy temperature (fluidState.partialPressure N2Idx) *
      fluidState.massFrac gPhaseIdx N2Idx

/-- `Simple_H2O_N2_System::phaseInternalEnergy`: computes the phase enthalpy
`h` (the source's unqualified `enthalpy(...)` call is modelled as
`phaseEnthalpy`), then returns `h - pressure*phaseDensity(...)` for the
liquid phase and `h - R*temperature` for every other phase index. -/
noncomputable def phaseInternalEnergy (sys : FsComponents) (phaseIdx : ℤ)
    (temperature pressure : ℝ) (fluidState : FluidState) : Except FsErr ℝ :=
  let h := phaseEnthalpy sys phaseIdx temperature pressure fluidState
  if phaseIdx = lPhaseIdx then
    (phaseDensity sys phaseIdx temperature pressure fluidState).map
      (fun rho => h - pressure * rho)
  else
    .ok (h - sys.R * temperature)

end Simple_H2O_N2_System

/-- A concrete component bundle used to instantiate the parametric fluid
system on sample inputs (molar masses chosen so the sample gas mixture has
mean molar mass `0.02 kg/mol`). -/
noncomputable def sampleComponents : FsComponents :=
  ⟨"H2O", "N2", 0.018, 0.022, fun _ _ => 1000, fun _ _ => 0.001,
    fun _ _ => 0.00002, fun _ _ => 100, fun _ _ => 200, fun _ _ => 300,
    8.314⟩

/-- A concrete fluid state with equimolar gas composition. -/
noncomputable def sampleFluidState : FluidState :=
  ⟨fun _ _ => 1/2, fun _ _ => 1/2, fun _ => 1⟩

open Simple_H2O_N2_System in
/-- C3: `componentName` and `molarMass` throw `Dune::InvalidStateException`
for every component index outside `{H2OIdx, N2Idx}`, and `phaseDensity`
throws for every phase index outside `{lPhaseIdx, gPhaseIdx}`; no value is
returned. -/
theorem fluidSystem_invalid_index_throws (sys : FsComponents) (i j : ℤ)
    (hci : i ≠ H2OIdx) (hcn : i ≠ N2Idx)
    (hpl : j ≠ lPhaseIdx) (hpg : j ≠ gPhaseIdx)
    (T P : ℝ) (fs : FluidState) :
    componentName sys i = .error (.invalidCompIdx i) ∧
    molarMass sys i = .error (.invalidCompIdx i) ∧
    phaseDensity sys j T P fs = .error (.invalidPhaseIdx j) := by
  unfold componentName molarMass phaseDensity
  simp [hci, hcn, hpl, hpg]

/-- C3 witness: the invalid-index theorem instantiated at component index 5
and phase index 7. -/
theorem fluidSystem_invalid_index_throws_witness :
    (5 : ℤ) ≠ Simple_H2O_N2_System.H2OIdx ∧
    (7 : ℤ) ≠ Simple_H2O_N2_System.lPhaseIdx ∧
    Simple_H2O_N2_System.molarMass sampleComponents 5
      = .error (.invalidCompIdx 5) :=
  ⟨by decide, by decide,
    (fluidSystem_invalid_index_throws sampleComponents 5 7
      (by decide) (by decide) (by decide) (by decide)
      300 100000 sampleFluidState).2.1⟩

open Simple_H2O_N2_System in
/-- C7: for the gas phase, `phaseDensity` returns the ideal-gas density
`P*M/(R*T)` where `M` is the mole-fraction weighted mean molar mass of H2O
and N2 in the gas phase. -/
theorem phaseDensity_gas_idealGas (sys : FsComponents)
    (T P M : ℝ) (fs : FluidState)
    (hM : fs.moleFrac gPhaseIdx H2OIdx * sys.H2O_molarMass +
          fs.moleFrac gPhaseIdx N2Idx * sys.N2_molarMass = M) :
    phaseDensity sys gPhaseIdx T P fs = .ok (P * M / (sys.R * T)) := by
  unfold phaseDensity IdealGas.density
  rw [if_neg (by decide), if_pos rfl]
  simp [hM]

/-- C7 witness: the ideal-gas density theorem instantiated at `T = 300 K`,
`P = 1e5 Pa` and an equimolar H2O/N2 gas with mean molar mass
`M = 0.02 kg/mol`. -/
theorem phaseDensity_gas_idealGas_witness :
    sampleFluidState.moleFrac Simple_H2O_N2_System.gPhaseIdx
        Simple_H2O_N2_System.H2OIdx * sampleComponents.H2O_molarMass +
      sampleFluidState.moleFrac Simple_H2O_N2_System.gPhaseIdx
        Simple_H2O_N2_System.N2Idx * sampleComponents.N2_molarMass = 0.02 ∧
    Simple_H2O_N2_System.phaseDensity sampleComponents
        Simple_H2O_N2_System.gPhaseIdx 300 100000 sampleFluidState
      = .ok (100000 * 0.02 / (sampleComponents.R * 300)) :=
  ⟨by norm_num [sampleFluidState, sampleComponents],
    phaseDensity_gas_idealGas sampleComponents 300 100000 0.02
      sampleFluidState (by norm_num [sampleFluidState, sampleComponents])⟩

open Simple_H2O_N2_System in
/-- C9: `phaseViscosity` never reports an invalid phase index: for every
phase index other than `lPhaseIdx` — including indices outside
`{lPhaseIdx, gPhaseIdx}` — it returns the nitrogen gas viscosity instead of
throwing, unlike `phaseDensity` in the same fluid system. -/
theorem phaseViscosity_no_invalid_index (sys : FsComponents) (i : ℤ)
    (hi : i ≠ lPhaseIdx)
    (T P : ℝ) (fs : FluidState) :
    phaseViscosity sys i T P fs = sys.N2_gasViscosity T P ∧
    (i ≠ gPhaseIdx → phaseDensity sys i T P fs = .error (.invalidPhaseIdx i)) := by
  constructor
  · unfold phaseViscosity
    rw [if_neg hi]
  · intro hg
    unfold phaseDensity
    rw [if_neg hi, if_neg hg]

/-- C9 witness: the viscosity-dispatch theorem instantiated at the
out-of-range phase index 2. -/
theorem phaseViscosity_no_invalid_index_witness :
    (2 : ℤ) ≠ Simple_H2O_N2_System.lPhaseIdx ∧
    Simple_H2O_N2_System.phaseViscosity sampleComponents 2 300 100000
        sampleFluidState
      = sampleComponents.N2_gasViscosity 300 100000 :=
  ⟨by decide,
    (phaseViscosity_no_invalid_index sampleComponents 2 (by decide)
      300 100000 sampleFluidState).1⟩

open Simple_H2O_N2_System in
/-- C10: for the liquid phase, `phaseInternalEnergy` returns the phase
enthalpy minus pressure times the density returned by `phaseDensity`
(`h - p*rho`, not `h - p/rho`); for the gas phase it returns `h - R*T`. -/
theorem phaseInternalEnergy_formula (sys : FsComponents)
    (T P rho : ℝ) (fs : FluidState)
    (hrho : phaseDensity sys lPhaseIdx T P fs = .ok rho) :
    phaseInternalEnergy sys lPhaseIdx T P fs =
      .ok (phaseEnthalpy sys lPhaseIdx T P fs - P * rho) ∧
    phaseInternalEnergy sys gPhaseIdx T P fs =
      .ok (phaseEnthalpy sys gPhaseIdx T P fs - sys.R * T) := by
  constructor
  · unfold phaseInternalEnergy
    rw [if_pos rfl, hrho]
    rfl
  · unfold phaseInternalEnergy
    rw [if_neg (by decide)]

/-- C10 witness: the internal-energy theorem instantiated on the sample
components, whose `phaseDensity` for the liquid phase is `1000 kg/m^3`. -/
theorem phaseInternalEnergy_formula_witness :
    Simple_H2O_N2_System.phaseDensity sampleComponents
        Simple_H2O_N2_System.lPhaseIdx 300 100000 sampleFluidState
      = .ok 1000 ∧
    Simple_H2O_N2_System.phaseInternalEnergy sampleComponents
        Simple_H2O_N2_System.lPhaseIdx 300 100000 sampleFluidState
      = .ok (Simple_H2O_N2_System.phaseEnthalpy sampleComponents
          Simple_H2O_N2_System.lPhaseIdx 300 100000 sampleFluidState
          - 100000 * 1000) :=
  ⟨rfl,
    (phaseInternalEnergy_formula sampleComponents 300 100000 1000
      sampleFluidState rfl).1⟩

/-- An IEEE-754-style scalar: a finite real, a signed infinity, or NaN.
Used to model the floating-point behaviour the changelog's `pow` bugfix is
about. -/
inductive FVal where
  | fin : ℝ → FVal
  | posInf : FVal
  | negInf : FVal
  | nan : FVal

noncomputable instance : DecidableEq FVal :=
  fun _ _ => Classical.dec _

/-- IEEE-754 multiplication on `FVal`: `0 * ±inf = nan`, sign rules for the
infinities, `nan` absorbing. -/
noncomputable def mulF : FVal → FVal → FVal
  | .fin a, .fin b => .fin (a * b)
  | .fin a, .posInf => if 0 < a then .posInf else if a < 0 then .negInf else .nan
  | .fin a, .negInf => if 0 < a then .negInf else if a < 0 then .posInf else .nan
  | .posInf, .fin b => if 0 < b then .posInf else if b < 0 then .negInf else .nan
  | .negInf, .fin b => if 0 < b then .negInf else if b < 0 then .posInf else .nan
  | .posInf, .posInf => .posInf
  | .posInf, .negInf => .negInf
  | .negInf, .posInf => .negInf
  | .negInf, .negInf => .posInf
  | .nan, _ => .nan
  | _, .nan => .nan

/-- Scalar `pow` on `FVal` with C99 semantics for the cases the model needs:
`pow(0, e)` is `+inf` for `e < 0`, `1` for `e = 0` and `0` for `e > 0` (never
NaN); a positive finite base maps to the real power; a negative finite base
(non-integral exponents) and `-inf` are conservatively mapped to NaN. -/
noncomputable def powF : FVal → ℝ → FVal
  | .fin a, e =>
    if a = 0 then
      if e < 0 then .posInf else if e = 0 then .fin 1 else .fin 0
    else if 0 < a then .fin (a ^ e)
    else .nan
  | .posInf, e =>
    if e < 0 then .fin 0 else if e = 0 then .fin 1 else .posInf
  | .negInf, _ => .nan
  | .nan, _ => .nan

/-- A dense-AD evaluation: a value and a vector of partial derivatives. -/
structure EvalF where
  value : FVal
  derivatives : List FVal

/-- Modelled from the spec: the dense-AD toolbox `pow(x, c)` (its source is
outside this sample; the changelog records the bugfix "calling pow() with a
base of 0.0 does not produce NaNs anymore").  The result value is
`powF x.value c` and each derivative is `c * x^(c-1) * dx_i` by the chain
rule, except that base `0` is special-cased: there the derivatives are set to
finite `0` instead of evaluating `c * 0^(c-1) * dx_i` (which would multiply
`0` by infinity and yield NaN). -/
noncomputable def EvalF.pow (x : EvalF) (c : ℝ) : EvalF :=
  if x.value = .fin 0 then
    ⟨powF x.value c, x.derivatives.map (fun _ => .fin 0)⟩
  else
    ⟨powF x.value c,
      x.derivatives.map (fun d => mulF (mulF (.fin c) (powF x.value (c - 1))) d)⟩

/-- C6: for every exponent in the representative set `{-1, 0.5, 2}`, the
library `pow` with base exactly `0.0` never returns NaN — neither in the
value nor in any derivative slot (the base-0 case is special-cased). -/
theorem adPow_base_zero_no_nan (ds : List FVal) :
    ((EvalF.mk (.fin 0) ds).pow (-1)).value ≠ .nan ∧
    ((EvalF.mk (.fin 0) ds).pow (1/2)).value ≠ .nan ∧
    ((EvalF.mk (.fin 0) ds).pow 2).value ≠ .nan ∧
    ∀ c : ℝ, ((EvalF.mk (.fin 0) ds).pow c).derivatives
      = ds.map (fun _ => .fin 0) := by
  refine ⟨?_, ?_, ?_, ?_⟩
  · norm_num [EvalF.pow, powF]
    exact fun h => FVal.noConfusion h
  · norm_num [EvalF.pow, powF]
    exact fun h => FVal.noConfusion h
  · norm_num [EvalF.pow, powF]
    exact fun h => FVal.noConfusion h
  · intro c
    simp [EvalF.pow]

/-- C8 counterexample: `computePartialPressures` mutates its `FluidState`
argument.  At `pg = 1e5` with the equimolar sample state (every partial
pressure `1`), the call writes `1e5 * 1/2 = 50000` into the H2O
partial-pressure slot, so the output state differs from the input state —
refuting the claim that no exported call mutates its input parameter
structs. -/
theorem computePartialPressures_mutates_fluidState :
    (Simple_H2O_N2_System.computePartialPressures 300 100000
        sampleFluidState).partialPressure Simple_H2O_N2_System.H2OIdx
      = 50000 ∧
    sampleFluidState.partialPressure Simple_H2O_N2_System.H2OIdx = 1 ∧
    (Simple_H2O_N2_System.computePartialPressures 300 100000
        sampleFluidState).partialPressure Simple_H2O_N2_System.H2OIdx
      ≠ sampleFluidState.partialPressure Simple_H2O_N2_System.H2OIdx := by
  have h1 : (Simple_H2O_N2_System.computePartialPressures 300 100000
      sampleFluidState).partialPressure Simple_H2O_N2_System.H2OIdx
      = 50000 := by
    norm_num [Simple_H2O_N2_System.computePartialPressures,
      FluidState.setPartialPressure, sampleFluidState,
      Simple_H2O_N2_System.H2OIdx, Simple_H2O_N2_System.N2Idx,
      Simple_H2O_N2_System.gPhaseIdx]
  have h2 : sampleFluidState.partialPressure Simple_H2O_N2_System.H2OIdx
      = 1 := rfl
  refine ⟨h1, h2, ?_⟩
  rw [h1, h2]
  norm_num

open BrooksCorey Simple_H2O_N2_System in
/-- C8 (amended): every exported function is deterministic — two calls with
equal arguments return equal results — and every exported function except
`computePartialPressures` mutates no state; `computePartialPressures`, whose
documented purpose is to assign partial pressures to its `FluidState`
argument, writes only that argument's partial-pressure slots, leaving its
mole and mass fractions untouched. -/
theorem exported_functions_deterministic
    (p p' : BCParams) (s s' pc pc' : ℝ)
    (sys sys' : FsComponents) (i i' j j' : ℤ) (T T' P P' pg pg' : ℝ)
    (fs fs' : FluidState)
    (hp : p = p') (hs : s = s') (hpc : pc = pc') (hsys : sys = sys')
    (hi : i = i') (hj : j = j') (hT : T = T') (hP : P = P')
    (hpg : pg = pg') (hfs : fs = fs') :
    pC p s = pC p' s' ∧ Sw p pc = Sw p' pc' ∧
    krw p s = krw p' s' ∧ krn p s = krn p' s' ∧
    molarMass sys i = molarMass sys' i' ∧
    phaseDensity sys j T P fs = phaseDensity sys' j' T' P' fs' ∧
    computePartialPressures T pg fs = computePartialPressures T' pg' fs' ∧
    (computePartialPressures T pg fs).moleFrac = fs.moleFrac ∧
    (computePartialPressures T pg fs).massFrac = fs.massFrac := by
  subst hp hs hpc hsys hi hj hT hP hpg hfs
  exact ⟨rfl, rfl, rfl, rfl, rfl, rfl, rfl, rfl, rfl⟩

/-- C8 witness: determinism and the write-locality of
`computePartialPressures` instantiated on concrete sample arguments. -/
theorem exported_functions_deterministic_witness :
    BrooksCorey.pC ⟨1000, 2⟩ (1/2) = BrooksCorey.pC ⟨1000, 2⟩ (1/2) ∧
    BrooksCorey.Sw ⟨1000, 2⟩ 3 = BrooksCorey.Sw ⟨1000, 2⟩ 3 ∧
    BrooksCorey.krw ⟨1000, 2⟩ (1/2) = BrooksCorey.krw ⟨1000, 2⟩ (1/2) ∧
    BrooksCorey.krn ⟨1000, 2⟩ (1/2) = BrooksCorey.krn ⟨1000, 2⟩ (1/2) ∧
    Simple_H2O_N2_System.molarMass sampleComponents 0
      = Simple_H2O_N2_System.molarMass sampleComponents 0 ∧
    Simple_H2O_N2_System.phaseDensity sampleComponents 1 300 100000
        sampleFluidState
      = Simple_H2O_N2_System.phaseDensity sampleComponents 1 300 100000
        sampleFluidState ∧
    Simple_H2O_N2_System.computePartialPressures 300 100000 sampleFluidState
      = Simple_H2O_N2_System.computePartialPressures 300 100000
        sampleFluidState ∧
    (Simple_H2O_N2_System.computePartialPressures 300 100000
        sampleFluidState).moleFrac = sampleFluidState.moleFrac ∧
    (Simple_H2O_N2_System.computePartialPressures 300 100000
        sampleFluidState).massFrac = sampleFluidState.massFrac :=
  exported_functions_deterministic ⟨1000, 2⟩ ⟨1000, 2⟩ (1/2) (1/2) 3 3
    sampleComponents sampleComponents 0 0 1 1 300 300 100000 100000
    100000 100000 sampleFluidState sampleFluidState
    rfl rfl rfl rfl rfl rfl rfl rfl rfl rfl

end OpmMaterial
